import Mathlib

/-!
Verification of the form-submission emailer (monitor_intake_forms.py).

The Python program polls a MongoDB collection for new intake forms,
extracts a fixed set of fields from each one (process_form), and mails
the result to a fixed recipient list (send_email), keeping a high-water
mark (last_checked_id) and a dedup set (seen_ids) inside
monitor_new_submission.

The embedding below models Python dictionary values with the inductive
type PyVal (None, strings, integers, byte strings, sub-documents), log
output explicitly as lists of log entries, and the SMTP transport as a
boolean parameter saying whether the delivery attempt raises.  Every
definition mirrors the corresponding Python function; line references
point into src/monitor_intake_forms.py.
-/

/-- Severity of one logging call. -/
inductive LogLevel where
  | info
  | warning
  | error
deriving DecidableEq, Repr

/-- One log line: level plus message text. -/
structure LogEntry where
  level : LogLevel
  msg : String
deriving DecidableEq, Repr

/-- The exceptions that can arise in the modelled flows: a missing
dictionary key (Python KeyError) and a transport failure raised by the
SMTP session (smtplib.SMTPException). -/
inductive PyError where
  | keyError (key : String)
  | smtpError
deriving DecidableEq, Repr

/-- String rendering of an exception, used when it is interpolated into
a log message. -/
def pyErrStr : PyError → String
  | PyError.keyError k => "KeyError " ++ k
  | PyError.smtpError => "SMTPException"

/-- Model of handle_exception (lines 55-57): it logs the error and then
unconditionally re-raises it.  The result is the pair of the emitted log
lines and the exception that propagates to the caller; the second
component is always the original error because the bare raise on line 57
is unconditional. -/
def handle_exception (context : String) (e : PyError) : List LogEntry × PyError :=
  ([⟨LogLevel.error, "Error in " ++ context ++ ": " ++ pyErrStr e⟩], e)

/-- Python dictionary values as they occur in this program: None,
strings, integers (document identifiers), byte strings (file payloads)
and nested documents. -/
inductive PyVal where
  | none
  | str (s : String)
  | int (n : Int)
  | bytes (b : List Nat)
  | doc (fields : List (String × PyVal))

/-- A MongoDB document / Python dict, as an association list in
insertion order (Python dicts preserve insertion order and have unique
keys). -/
abbrev Form := List (String × PyVal)

/-- Python truthiness for the values above: None, empty strings, zero,
empty byte strings and empty documents are falsy. -/
def PyVal.truthy : PyVal → Bool
  | PyVal.none => false
  | PyVal.str s => s != ""
  | PyVal.int n => n != 0
  | PyVal.bytes [] => false
  | PyVal.bytes (_ :: _) => true
  | PyVal.doc [] => false
  | PyVal.doc (_ :: _) => true

/-- Model of Python str(v) for the values that reach string conversion
in this program (identifiers and field values interpolated into the
email body and log lines). -/
def pyStr : PyVal → String
  | PyVal.none => "None"
  | PyVal.str s => s
  | PyVal.int n => toString n
  | PyVal.bytes _ => "bytes"
  | PyVal.doc _ => "doc"

/-- Model of Python len(v) for the values on which the program calls
len (byte payloads; strings for completeness). -/
def pyLen : PyVal → Nat
  | PyVal.str s => s.length
  | PyVal.bytes b => b.length
  | PyVal.doc d => d.length
  | _ => 0

/-- The raw bytes of a payload value. -/
def pyBytes : PyVal → List Nat
  | PyVal.bytes b => b
  | _ => []

/-- Model of d.get(k, dflt) on a Python dict. -/
def pyGetD (d : Form) (k : String) (dflt : PyVal) : PyVal :=
  (d.lookup k).getD dflt

/-- Model of v.get(k) on a dictionary value, returning None for a
missing key as Python dict.get does.  On a value that is not a
dictionary, Python would instead raise AttributeError; that failure
path is not silently collapsed but modelled by process_form_exc below,
and every theorem that relies on this helper restricts its hypotheses
to document values. -/
def pyGet (v : PyVal) (k : String) : PyVal :=
  match v with
  | PyVal.doc d => pyGetD d k PyVal.none
  | _ => PyVal.none

/-- Model of the MongoDB order on identifiers, used by the gt filter and
the ascending sort in fetch_new_forms: integers by integer order,
strings lexicographically. -/
def pyLt : PyVal → PyVal → Bool
  | PyVal.int a, PyVal.int b => a < b
  | PyVal.str a, PyVal.str b => a < b
  | _, _ => false

/-- ALLOWED_MIME_TYPES (line 50). -/
def ALLOWED_MIME_TYPES : List String :=
  ["application/pdf", "image/jpeg", "image/png", "image/gif"]

/-- MAX_FILE_SIZE (line 51): 5 MiB. -/
def MAX_FILE_SIZE : Nat := 5 * 1024 * 1024

/-- ASCII lowercasing of one character (mimetypes compares extensions
case-insensitively). -/
def charLower : Char → Char
  | 'A' => 'a' | 'B' => 'b' | 'C' => 'c' | 'D' => 'd' | 'E' => 'e'
  | 'F' => 'f' | 'G' => 'g' | 'H' => 'h' | 'I' => 'i' | 'J' => 'j'
  | 'K' => 'k' | 'L' => 'l' | 'M' => 'm' | 'N' => 'n' | 'O' => 'o'
  | 'P' => 'p' | 'Q' => 'q' | 'R' => 'r' | 'S' => 's' | 'T' => 't'
  | 'U' => 'u' | 'V' => 'v' | 'W' => 'w' | 'X' => 'x' | 'Y' => 'y'
  | 'Z' => 'z' | c => c

/-- Walks the reversed character list of a filename, collecting the
characters after the last dot (lowercased); yields nothing when the
name has no dot, or when the only dot is the leading character. -/
def extOfAux : List Char → List Char → Option (List Char)
  | [], _ => Option.none
  | c :: rest, acc =>
    if c = '.' then
      if rest.isEmpty then Option.none else some acc
    else
      extOfAux rest (charLower c :: acc)

/-- The lowercased extension after the last dot of a filename, or the
empty string when there is none. -/
def extOf (file_name : String) : String :=
  match extOfAux file_name.data.reverse [] with
  | some cs => String.mk cs
  | Option.none => ""

/-- Modelled from the Python standard library: mimetypes.guess_type
restricted to the filename extensions relevant here (the four allowed
types, jpg as an alias of jpeg, and exe as a representative type outside
the allow-list); every other extension yields no guess. -/
def guess_type (file_name : String) : Option String :=
  match extOf file_name with
  | "pdf" => some "application/pdf"
  | "jpg" => some "image/jpeg"
  | "jpeg" => some "image/jpeg"
  | "png" => some "image/png"
  | "gif" => some "image/gif"
  | "exe" => some "application/x-msdownload"
  | _ => Option.none

/-- The membership test mime_type in ALLOWED_MIME_TYPES of line 97 (a
missing guess, Python None, is never a member). -/
def allowedMime : Option String → Bool
  | some t => ALLOWED_MIME_TYPES.contains t
  | Option.none => false

/-- The email body of line 82: one key colon value line per field,
skipping the uploadedFile key, joined with newlines. -/
def bodyOf (text_data : Form) : String :=
  String.intercalate "\n"
    ((text_data.filter (fun kv => kv.1 != "uploadedFile")).map
      (fun kv => kv.1 ++ ": " ++ pyStr kv.2))

/-- The warning logged on line 91 when the payload exceeds the ceiling. -/
def sizeWarn (file_name : String) : LogEntry :=
  ⟨LogLevel.warning, "File " ++ file_name ++ " exceeds the size limit. Email not sent"⟩

/-- The warning logged on line 98 for a type outside the allow-list. -/
def typeWarn (mime_type : Option String) : LogEntry :=
  ⟨LogLevel.warning,
   "Unsupported file type: " ++ (match mime_type with
     | some t => t
     | Option.none => "None")⟩

/-- The outbound message as far as the claims observe it: the plain-text
body and the optional attachment (original filename and payload). -/
structure EmailMsg where
  body : String
  attachment : Option (String × List Nat)
deriving DecidableEq, Repr

/-- Outcome of one send_email call.  sent: the message was handed to the
transport without error.  aborted: the early return on line 99 ran, so
no delivery was attempted.  raised: the SMTP session failed and
handle_exception re-raised, so the exception propagated to the caller of
send_email. -/
inductive SendResult where
  | sent (msg : EmailMsg) (logs : List LogEntry)
  | aborted (logs : List LogEntry)
  | raised (logs : List LogEntry)
deriving DecidableEq, Repr

/-- Whether the send_email call ended in a propagated exception. -/
def SendResult.isRaised : SendResult → Bool
  | SendResult.raised _ => true
  | _ => false

/-- Model of the SMTP block of lines 108-118: when the transport accepts
the message the success line of 112 is logged; when it raises, the
except branches call handle_exception, which logs and re-raises, so the
call ends raised. -/
def smtp_send (smtpOk : Bool) (msg : EmailMsg) (logs : List LogEntry) : SendResult :=
  if smtpOk then
    SendResult.sent msg (logs ++ [⟨LogLevel.info, "Email sent to"⟩])
  else
    SendResult.raised (logs ++ (handle_exception "SMTP error occurred" PyError.smtpError).1)

/-- Model of send_email (lines 60-118).  smtpOk says whether the SMTP
session succeeds.  The branch structure mirrors the source: attach only
when both file_data and file_name are truthy (line 88); an oversized
payload drops the attachment with a warning and the body-only message
still goes to the transport (lines 90-91 falling through to 108); a
MIME type outside the allow-list returns before any delivery attempt
(lines 97-99); otherwise the payload is attached under its original
filename (lines 101-105). -/
def send_email (smtpOk : Bool) (text_data : Form)
    (file_data : PyVal) (file_name : PyVal) : SendResult :=
  let body := bodyOf text_data
  if file_data.truthy && file_name.truthy then
    if pyLen file_data > MAX_FILE_SIZE then
      smtp_send smtpOk ⟨body, Option.none⟩ [sizeWarn (pyStr file_name)]
    else
      let mime_type := guess_type (pyStr file_name)
      if allowedMime mime_type then
        smtp_send smtpOk ⟨body, some (pyStr file_name, pyBytes file_data)⟩ []
      else
        SendResult.aborted [typeWarn mime_type]
  else
    smtp_send smtpOk ⟨body, Option.none⟩ []

/-- A thread spawned by sent_email_async: the deferred send, waiting for
the transport outcome; the spawning caller gets no result back. -/
structure SpawnedThread where
  run : Bool → SendResult

/-- Model of sent_email_async (lines 121-129): wraps send_email in a new
Thread and returns at once.  Defined in the source but never invoked by
monitor_new_submission, which calls send_email directly on line 214. -/
def sent_email_async (text_data : Form) (file_data : PyVal) (file_name : PyVal) :
    SpawnedThread :=
  ⟨fun smtpOk => send_email smtpOk text_data file_data file_name⟩

/-- Stable insertion of a form into a list sorted ascending by the
identifier field, placing it after equal keys. -/
def insertById (f : Form) : List Form → List Form
  | [] => [f]
  | g :: gs =>
    if pyLt (pyGetD f "_id" PyVal.none) (pyGetD g "_id" PyVal.none) then
      f :: g :: gs
    else
      g :: insertById f gs

/-- Ascending stable sort by the identifier field, modelling the
sort on line 145. -/
def sortById : List Form → List Form
  | [] => []
  | f :: fs => insertById f (sortById fs)

/-- Model of fetch_new_forms (lines 132-145) over an explicit collection
contents: when last_check_id is truthy the filter keeps documents whose
identifier is strictly greater; otherwise no filter applies; the result
is sorted ascending by identifier. -/
def fetch_new_forms (collection : List Form) (last_check_id : PyVal) : List Form :=
  let filtered :=
    if last_check_id.truthy then
      collection.filter (fun f => pyLt last_check_id (pyGetD f "_id" PyVal.none))
    else
      collection
  sortById filtered

/-- The fixed field list of lines 159-162. -/
def customer_data_keys : List String :=
  ["name", "email", "phone", "communicationMethod", "contactTime",
   "projectType", "projectDescription", "uploadedFile", "createdAt"]

/-- Result of process_form: the Python 3-tuple of lines 184, plus the
log lines the call emits (logging is a side effect in the source and is
made explicit here). -/
structure ProcessResult where
  customer_info : Form
  file_attachment : PyVal
  file_name : PyVal
  logs : List LogEntry

/-- Model of process_form (lines 148-184).  The field mapping takes each
declared key with form.get(key, "N/A") (line 165).  The file handling
mirrors lines 167-183: when the uploadedFile key is present and its
value truthy, data and filename are read with get, and only when both
are truthy does the attachment carry the payload; otherwise a warning is
logged and the attachment stays None while file_name keeps whatever the
get on line 175 returned.  A falsy uploadedFile value logs an info line;
an absent key leaves both components None silently.  This version is
total: on a truthy non-dictionary uploadedFile value Python raises
AttributeError on line 174 instead of returning; that failure path is
modelled by process_form_exc below. -/
def process_form (form : Form) : ProcessResult :=
  let customer_info := customer_data_keys.map
    (fun k => (k, pyGetD form k (PyVal.str "N/A")))
  if (form.lookup "uploadedFile").isSome then
    let uploaded_file := pyGetD form "uploadedFile" PyVal.none
    if uploaded_file.truthy then
      let file_data := pyGet uploaded_file "data"
      let file_name := pyGet uploaded_file "filename"
      if file_data.truthy && file_name.truthy then
        ⟨customer_info, file_data, file_name, []⟩
      else
        ⟨customer_info, PyVal.none, file_name,
         [⟨LogLevel.warning, "Invalid or unsupported file: " ++ pyStr file_name⟩]⟩
    else
      ⟨customer_info, PyVal.none, PyVal.none, [⟨LogLevel.info, "No file uploaded"⟩]⟩
  else
    ⟨customer_info, PyVal.none, PyVal.none, []⟩

/-- Model of process_form including its failure path.  When the
uploadedFile value is truthy but not a dictionary, line 174 calls get
on it and Python raises AttributeError, so the call produces no result
at all; Option.none models that raised exception.  On a document,
falsy, or absent uploadedFile value the function returns exactly the
branches of lines 165-184, like process_form above. -/
def process_form_exc (form : Form) : Option ProcessResult :=
  let customer_info := customer_data_keys.map
    (fun k => (k, pyGetD form k (PyVal.str "N/A")))
  if (form.lookup "uploadedFile").isSome then
    let uploaded_file := pyGetD form "uploadedFile" PyVal.none
    if uploaded_file.truthy then
      match uploaded_file with
      | PyVal.doc d =>
        let file_data := pyGetD d "data" PyVal.none
        let file_name := pyGetD d "filename" PyVal.none
        if file_data.truthy && file_name.truthy then
          some ⟨customer_info, file_data, file_name, []⟩
        else
          some ⟨customer_info, PyVal.none, file_name,
            [⟨LogLevel.warning, "Invalid or unsupported file: " ++ pyStr file_name⟩]⟩
      | _ => Option.none
    else
      some ⟨customer_info, PyVal.none, PyVal.none, [⟨LogLevel.info, "No file uploaded"⟩]⟩
  else
    some ⟨customer_info, PyVal.none, PyVal.none, []⟩

/-- The mutable state of monitor_new_submission (lines 191-192): the
dedup set of stringified identifiers and the high-water mark (None
before the first record). -/
structure LoopState where
  seen_ids : List String
  last_checked_id : PyVal

/-- What happened to one examined record in the for loop of lines
200-214: either the dedup check skipped it, or it was processed
(process_form plus send_email) with the recorded send outcome. -/
inductive Event where
  | skipped (id : String)
  | processed (id : String) (send : SendResult)

/-- The identifiers of records handed to send_email, in dispatch
order. -/
def processedIds : List Event → List String
  | [] => []
  | Event.processed i _ :: es => i :: processedIds es
  | Event.skipped _ :: es => processedIds es

/-- Model of the for loop of lines 200-214 over the fetched batch.
smtp gives the transport outcome for the record at each batch position.
Per record, in source order: form of name (line 201, KeyError when
absent), form of the identifier (lines 202-203, KeyError when absent),
the high-water-mark update (line 203, before the dedup check), the
dedup skip (lines 206-207), the seen_ids insertion (line 209), then
process_form and the synchronous send_email call (lines 213-214).  A
raised send propagates out of the loop body, ending the batch early;
the third component records the exception that escaped, if any. -/
def run_forms (smtp : Nat → Bool) :
    List Form → LoopState → Nat → List Event × LoopState × Option PyError
  | [], st, _ => ([], st, Option.none)
  | form :: rest, st, k =>
    match form.lookup "name" with
    | Option.none => ([], st, some (PyError.keyError "name"))
    | some _ =>
      match form.lookup "_id" with
      | Option.none => ([], st, some (PyError.keyError "_id"))
      | some idV =>
        let form_id := pyStr idV
        let st1 : LoopState := ⟨st.seen_ids, idV⟩
        if form_id ∈ st1.seen_ids then
          let r := run_forms smtp rest st1 (k + 1)
          (Event.skipped form_id :: r.1, r.2)
        else
          let st2 : LoopState := ⟨form_id :: st1.seen_ids, st1.last_checked_id⟩
          let pr := process_form form
          let sr := send_email (smtp k) pr.customer_info pr.file_attachment pr.file_name
          if sr.isRaised then
            ([Event.processed form_id sr], st2, some PyError.smtpError)
          else
            let r := run_forms smtp rest st2 (k + 1)
            (Event.processed form_id sr :: r.1, r.2)

/-- Model of one iteration of the while loop of lines 195-218: fetch,
run the batch, then sleep (not modelled).  When any exception escapes
the try block, the except branch of lines 216-217 calls
handle_exception, which logs and unconditionally re-raises; the
time.sleep on line 218 is therefore unreachable and the exception
propagates out of monitor_new_submission, so the iteration ends in
error instead of resuming. -/
def monitor_iteration (collection : List Form) (smtp : Nat → Bool) (st : LoopState) :
    Except PyError LoopState :=
  let r := run_forms smtp (fetch_new_forms collection st.last_checked_id) st 0
  match r.2.2 with
  | Option.none => Except.ok r.2.1
  | some e => Except.error (handle_exception "Error monitoring submission:" e).2

/-! Concrete documents used by the closed demonstration theorems. -/

/-- A minimal valid intake document with identifier 1. -/
def formA : Form := [("name", PyVal.str "Ann"), ("_id", PyVal.int 1)]

/-- A minimal valid intake document with identifier 2. -/
def formB : Form := [("name", PyVal.str "Bob"), ("_id", PyVal.int 2)]

/-- A minimal valid intake document with identifier 3. -/
def formC : Form := [("name", PyVal.str "Cal"), ("_id", PyVal.int 3)]

/-- C1: the claim says the top-level handler of the watch loop logs the
error, sleeps, and resumes, never propagating the exception.  In the
code, handle_exception re-raises unconditionally, so the exception
escapes monitor_new_submission: the second component of handle_exception
is always the original error, and an iteration over a collection whose
only document lacks a name field ends in Except.error instead of
resuming. -/
theorem C1_error_propagates :
    (∀ c e, (handle_exception c e).2 = e)
    ∧ monitor_iteration [[("_id", PyVal.int 9)]] (fun _ => true) ⟨[], PyVal.none⟩
        = Except.error (PyError.keyError "name") :=
  ⟨fun _ _ => rfl, rfl⟩

/-- C2: the claim says every send runs on a dedicated worker thread and
the watch loop never blocks on delivery.  In the code the loop calls
send_email synchronously (line 214; sent_email_async is never invoked),
so the control flow of the loop observes the transport outcome: with a
failing transport and two fetched records, the cycle itself ends with
the SMTP exception and only the first record is dispatched. -/
theorem C2_send_is_synchronous :
    (run_forms (fun _ => false) [formA, formB] ⟨[], PyVal.none⟩ 0).2.2 = some PyError.smtpError
    ∧ processedIds (run_forms (fun _ => false) [formA, formB] ⟨[], PyVal.none⟩ 0).1 = ["1"] :=
  ⟨rfl, rfl⟩

/-- C3: the claim says one full poll cycle ends with the high-water mark
at the last record of the batch regardless of send outcomes.  When all
sends succeed the mark does reach the last identifier, but when a send
raises, the synchronous call aborts the batch and the mark stops at the
failing record: with records 1 and 2 and a failing transport the cycle
ends with mark 1, not 2. -/
theorem C3_mark_depends_on_send_outcome :
    (run_forms (fun _ => true) [formA, formB] ⟨[], PyVal.none⟩ 0).2.1.last_checked_id
        = PyVal.int 2
    ∧ (run_forms (fun _ => false) [formA, formB] ⟨[], PyVal.none⟩ 0).2.1.last_checked_id
        = PyVal.int 1 :=
  ⟨rfl, rfl⟩

/-- C5: the claim says a transport failure on record 2 of three still
lets record 3 be processed and does not roll the mark back past
record 2.  In the code the raised send aborts the for loop: with
records 1, 2, 3 and the transport failing exactly on the second send,
only records 1 and 2 are dispatched, the mark stays at 2 (second half
of the claim holds), and the cycle ends with the SMTP exception, so
record 3 is never processed in that run. -/
theorem C5_cycle_aborts_after_record2 :
    processedIds (run_forms (fun k => k != 1) [formA, formB, formC] ⟨[], PyVal.none⟩ 0).1
        = ["1", "2"]
    ∧ (run_forms (fun k => k != 1) [formA, formB, formC] ⟨[], PyVal.none⟩ 0).2.1.last_checked_id
        = PyVal.int 2
    ∧ (run_forms (fun k => k != 1) [formA, formB, formC] ⟨[], PyVal.none⟩ 0).2.2
        = some PyError.smtpError :=
  ⟨rfl, rfl, rfl⟩

/-- C10: a fetched record without a name key makes the loop iteration
raise a KeyError on line 201, before the dedup check, the transformer
and the send: the batch run produces no events, leaves the state (mark
and dedup set) untouched, and ends with the lookup error. -/
theorem C10_missing_name (smtp : Nat → Bool) (form : Form) (rest : List Form)
    (st : LoopState) (k : Nat) (h : form.lookup "name" = Option.none) :
    run_forms smtp (form :: rest) st k = ([], st, some (PyError.keyError "name")) := by
  simp [run_forms, h]

/-- Witness for C10: a document carrying only an identifier raises the
name lookup error and nothing else happens. -/
theorem C10_missing_name_witness :
    run_forms (fun _ => true) [[("_id", PyVal.int 7)]] ⟨[], PyVal.none⟩ 0
      = ([], ⟨[], PyVal.none⟩, some (PyError.keyError "name")) :=
  C10_missing_name (fun _ => true) [("_id", PyVal.int 7)] [] ⟨[], PyVal.none⟩ 0 rfl

/-- Looking up a key in the association list built by mapping a function
over a key list finds the image of that key, whenever the key occurs in
the list. -/
theorem lookup_map_keys (f : String → PyVal) :
    ∀ (ks : List String) (k : String), k ∈ ks →
      (ks.map (fun x => (x, f x))).lookup k = some (f k) := by
  intro ks
  induction ks with
  | nil => intro k hk; cases hk
  | cons a as ih =>
    intro k hk
    by_cases h : k = a
    · subst h
      simp [List.lookup]
    · have hk2 : k ∈ as := by
        rcases List.mem_cons.mp hk with h1 | h1
        · exact absurd h1 h
        · exact h1
      have hba : (k == a) = false := beq_eq_false_iff_ne.mpr h
      simp [List.lookup, hba, ih k hk2]

/-- Whenever process_form_exc returns at all, the field mapping it
returns is the one built on line 165, whatever file-handling branch
ran. -/
theorem process_form_exc_customer_info (form : Form) (pr : ProcessResult)
    (h : process_form_exc form = some pr) :
    pr.customer_info
      = customer_data_keys.map (fun k => (k, pyGetD form k (PyVal.str "N/A"))) := by
  simp only [process_form_exc] at h
  repeat' split at h
  all_goals first
    | (cases h; rfl)
    | (exact Option.noConfusion h)

/-- process_form_exc returns a result on every record whose
uploadedFile value, when present and truthy, is a document: the
AttributeError path is the only one that produces nothing. -/
theorem process_form_exc_isSome (form : Form)
    (hshape : ∀ v, form.lookup "uploadedFile" = some v → v.truthy = true →
        ∃ d, v = PyVal.doc d) :
    (process_form_exc form).isSome = true := by
  simp only [process_form_exc]
  cases hu : form.lookup "uploadedFile" with
  | none => simp [pyGetD, hu]
  | some v =>
    by_cases ht : v.truthy
    · obtain ⟨d, rfl⟩ := hshape v hu ht
      simp only [pyGetD, hu, Option.getD_some, Option.isSome_some, if_true, ht]
      split <;> simp
    · simp [pyGetD, hu, ht]

/-- C8 counterexample: on a record whose uploadedFile value is the
truthy non-dictionary string x, Python raises AttributeError on
line 174 (get called on a string), so process_form returns no output
mapping at all; the claim that every input record yields a mapping
containing each declared field therefore fails at this record. -/
theorem C8_counterexample :
    process_form_exc [("uploadedFile", PyVal.str "x")] = Option.none
    ∧ (PyVal.str "x").truthy = true :=
  ⟨rfl, rfl⟩

/-- C8 amended: for every input record whose uploadedFile value, when
present and truthy, is a document, process_form returns an output
mapping that contains every field of the fixed declared list, bound to
the value in the record when the key is present and to the literal N/A
placeholder when it is missing; in particular a missing field never
causes a failure.  (A truthy non-document uploadedFile value instead
raises, see the counterexample.) -/
theorem C8_placeholder_fields_amended (form : Form) (k : String)
    (hk : k ∈ customer_data_keys)
    (hshape : ∀ v, form.lookup "uploadedFile" = some v → v.truthy = true →
        ∃ d, v = PyVal.doc d) :
    ∃ pr, process_form_exc form = some pr
      ∧ pr.customer_info.lookup k = some ((form.lookup k).getD (PyVal.str "N/A")) := by
  obtain ⟨pr, hpr⟩ := Option.isSome_iff_exists.mp (process_form_exc_isSome form hshape)
  refine ⟨pr, hpr, ?_⟩
  rw [process_form_exc_customer_info form pr hpr]
  exact lookup_map_keys (fun x => pyGetD form x (PyVal.str "N/A")) customer_data_keys k hk

/-- Witness for C8: a record that has only a name (so no uploadedFile
key at all) yields a mapping binding the email field to the
placeholder. -/
theorem C8_placeholder_fields_amended_witness :
    ∃ pr, process_form_exc [("name", PyVal.str "Ann")] = some pr
      ∧ pr.customer_info.lookup "email" = some (PyVal.str "N/A") :=
  C8_placeholder_fields_amended [("name", PyVal.str "Ann")] "email" (by decide)
    (fun v hv => Option.noConfusion hv)

/-- A non-empty byte payload is truthy. -/
theorem truthy_bytes_of_ne (b : List Nat) (hb : b ≠ []) :
    (PyVal.bytes b).truthy = true := by
  cases b with
  | nil => exact absurd rfl hb
  | cons x xs => rfl

/-- A non-empty string is truthy. -/
theorem truthy_str_of_ne (s : String) (hs : s ≠ "") :
    (PyVal.str s).truthy = true := by
  simp [PyVal.truthy, hs]

/-- C4: in send_email, for a non-empty payload and filename, the two
drop reasons are asymmetric exactly as the source implements them: a
payload over the size ceiling is dropped with a warning and the message
still goes to the transport with no attachment, while a filename whose
inferred MIME type is outside the allow-list makes send_email return
before any delivery attempt, so nothing is sent for that record. -/
theorem C4_drop_asymmetry (smtpOk : Bool) (td : Form) (b : List Nat) (nm : String)
    (hb : b ≠ []) (hn : nm ≠ "") :
    (b.length > MAX_FILE_SIZE →
       send_email smtpOk td (PyVal.bytes b) (PyVal.str nm)
         = smtp_send smtpOk ⟨bodyOf td, Option.none⟩ [sizeWarn nm])
    ∧ (b.length ≤ MAX_FILE_SIZE → allowedMime (guess_type nm) = false →
       send_email smtpOk td (PyVal.bytes b) (PyVal.str nm)
         = SendResult.aborted [typeWarn (guess_type nm)]) := by
  have htb := truthy_bytes_of_ne b hb
  have htn := truthy_str_of_ne nm hn
  constructor
  · intro hlen
    simp [send_email, htb, htn, pyLen, pyStr, hlen]
  · intro hlen hmime
    have h2 : ¬ (MAX_FILE_SIZE < b.length) := Nat.not_lt.mpr hlen
    simp [send_email, htb, htn, pyLen, pyStr, h2, hmime]

/-- Witness for C4: a one-byte payload named malware.exe is within the
size ceiling but has a disallowed type, so send_email aborts with the
type warning and never reaches the transport. -/
theorem C4_drop_asymmetry_witness :
    send_email true [] (PyVal.bytes [0]) (PyVal.str "malware.exe")
      = SendResult.aborted [typeWarn (guess_type "malware.exe")] :=
  (C4_drop_asymmetry true [] [0] "malware.exe"
      (by decide) (by decide)).2 (by decide) (by decide)

/-- C9: the size check of line 90 is strict.  For an allowed type, a
payload of exactly MAX_FILE_SIZE bytes is attached and delivered, while
a payload of MAX_FILE_SIZE plus one byte is dropped with the size
warning and the body-only message is still handed to the transport. -/
theorem C9_size_boundary (smtpOk : Bool) (td : Form) (b : List Nat) (nm : String)
    (hb : b ≠ []) (hn : nm ≠ "") (hallow : allowedMime (guess_type nm) = true) :
    (b.length = MAX_FILE_SIZE →
       send_email smtpOk td (PyVal.bytes b) (PyVal.str nm)
         = smtp_send smtpOk ⟨bodyOf td, some (nm, b)⟩ [])
    ∧ (b.length = MAX_FILE_SIZE + 1 →
       send_email smtpOk td (PyVal.bytes b) (PyVal.str nm)
         = smtp_send smtpOk ⟨bodyOf td, Option.none⟩ [sizeWarn nm]) := by
  have htb := truthy_bytes_of_ne b hb
  have htn := truthy_str_of_ne nm hn
  constructor
  · intro hlen
    simp [send_email, htb, htn, pyLen, pyStr, pyBytes, hlen, hallow]
  · intro hlen
    simp [send_email, htb, htn, pyLen, pyStr, hlen]

/-- A replica list of the ceiling length is not empty. -/
theorem replicate_max_ne_nil : List.replicate MAX_FILE_SIZE 0 ≠ ([] : List Nat) :=
  List.ne_nil_of_length_pos (by rw [List.length_replicate]; decide)

/-- A replica list one byte over the ceiling length is not empty. -/
theorem replicate_max_succ_ne_nil : List.replicate (MAX_FILE_SIZE + 1) 0 ≠ ([] : List Nat) :=
  List.ne_nil_of_length_pos (by rw [List.length_replicate]; decide)

/-- Witness for C9: with an allowed pdf filename, a payload of exactly
the ceiling is attached, and a payload one byte over is dropped while
the body-only message is still sent. -/
theorem C9_size_boundary_witness :
    (send_email true [] (PyVal.bytes (List.replicate MAX_FILE_SIZE 0)) (PyVal.str "scan.pdf")
        = smtp_send true ⟨bodyOf [], some ("scan.pdf", List.replicate MAX_FILE_SIZE 0)⟩ [])
    ∧ (send_email true [] (PyVal.bytes (List.replicate (MAX_FILE_SIZE + 1) 0)) (PyVal.str "scan.pdf")
        = smtp_send true ⟨bodyOf [], Option.none⟩ [sizeWarn "scan.pdf"]) :=
  ⟨(C9_size_boundary true [] (List.replicate MAX_FILE_SIZE 0) "scan.pdf"
      replicate_max_ne_nil (by decide) rfl).1 (List.length_replicate MAX_FILE_SIZE 0),
   (C9_size_boundary true [] (List.replicate (MAX_FILE_SIZE + 1) 0) "scan.pdf"
      replicate_max_succ_ne_nil (by decide) rfl).2 (List.length_replicate (MAX_FILE_SIZE + 1) 0)⟩

/-- C7 counterexample: a record whose uploadedFile sub-object has a
filename but no byte payload is malformed in the sense of the claim,
yet process_form does not return "no attachment" for both components:
the attachment bytes are absent, but the name component still carries
the filename, because line 175 assigns file_name before the validity
check of line 177. -/
theorem C7_counterexample :
    (process_form [("uploadedFile",
        PyVal.doc [("filename", PyVal.str "resume.pdf")])]).file_attachment = PyVal.none
    ∧ (process_form [("uploadedFile",
        PyVal.doc [("filename", PyVal.str "resume.pdf")])]).file_name ≠ PyVal.none := by
  refine ⟨rfl, ?_⟩
  intro h
  have h2 : PyVal.str "resume.pdf" = PyVal.none := h
  exact PyVal.noConfusion h2

/-- C7 amended: for a record whose uploadedFile sub-object is present,
non-empty and malformed (its data or filename entry is missing or
falsy), process_form logs a warning and returns no attachment payload,
but the name component of the result keeps whatever the filename entry
held (so it is absent only when the filename itself is missing); when
the uploadedFile key is absent entirely, both components are None and
nothing is logged. -/
theorem C7_malformed_file (form : Form) (u : List (String × PyVal)) :
    (form.lookup "uploadedFile" = some (PyVal.doc u) → u ≠ [] →
      ((pyGet (PyVal.doc u) "data").truthy && (pyGet (PyVal.doc u) "filename").truthy) = false →
      (process_form form).file_attachment = PyVal.none
      ∧ (process_form form).file_name = pyGet (PyVal.doc u) "filename"
      ∧ (process_form form).logs
          = [⟨LogLevel.warning,
              "Invalid or unsupported file: " ++ pyStr (pyGet (PyVal.doc u) "filename")⟩])
    ∧ (form.lookup "uploadedFile" = Option.none →
      (process_form form).file_attachment = PyVal.none
      ∧ (process_form form).file_name = PyVal.none
      ∧ (process_form form).logs = []) := by
  constructor
  · intro hu hne hmal
    have htr : (PyVal.doc u).truthy = true := by
      cases u with
      | nil => exact absurd rfl hne
      | cons a as => rfl
    refine ⟨?_, ?_, ?_⟩ <;> simp [process_form, pyGetD, hu, htr, hmal]
  · intro hu
    refine ⟨?_, ?_, ?_⟩ <;> simp [process_form, pyGetD, hu]

/-- Witness for C7: a sub-object that has a filename entry but no data
entry takes the malformed branch, returning no payload, keeping the
filename, and logging the warning. -/
theorem C7_malformed_file_witness :
    (process_form [("uploadedFile",
        PyVal.doc [("filename", PyVal.str "cv.pdf")])]).file_attachment = PyVal.none
    ∧ (process_form [("uploadedFile",
        PyVal.doc [("filename", PyVal.str "cv.pdf")])]).file_name
        = pyGet (PyVal.doc [("filename", PyVal.str "cv.pdf")]) "filename"
    ∧ (process_form [("uploadedFile",
        PyVal.doc [("filename", PyVal.str "cv.pdf")])]).logs
        = [⟨LogLevel.warning, "Invalid or unsupported file: "
              ++ pyStr (pyGet (PyVal.doc [("filename", PyVal.str "cv.pdf")]) "filename")⟩] :=
  (C7_malformed_file [("uploadedFile", PyVal.doc [("filename", PyVal.str "cv.pdf")])]
      [("filename", PyVal.str "cv.pdf")]).1 rfl (List.cons_ne_nil _ _) rfl

theorem run_forms_cons_eq (smtp : Nat → Bool) (form : Form) (rest : List Form)
    (st : LoopState) (k : Nat) (nv idV : PyVal)
    (hname : form.lookup "name" = some nv) (hid : form.lookup "_id" = some idV) :
    run_forms smtp (form :: rest) st k
      = (if pyStr idV ∈ st.seen_ids then
           (Event.skipped (pyStr idV) :: (run_forms smtp rest ⟨st.seen_ids, idV⟩ (k + 1)).1,
            (run_forms smtp rest ⟨st.seen_ids, idV⟩ (k + 1)).2)
         else
           if (send_email (smtp k) (process_form form).customer_info
                 (process_form form).file_attachment (process_form form).file_name).isRaised then
             ([Event.processed (pyStr idV)
                 (send_email (smtp k) (process_form form).customer_info
                   (process_form form).file_attachment (process_form form).file_name)],
              ⟨pyStr idV :: st.seen_ids, idV⟩, some PyError.smtpError)
           else
             (Event.processed (pyStr idV)
                 (send_email (smtp k) (process_form form).customer_info
                   (process_form form).file_attachment (process_form form).file_name)
               :: (run_forms smtp rest ⟨pyStr idV :: st.seen_ids, idV⟩ (k + 1)).1,
              (run_forms smtp rest ⟨pyStr idV :: st.seen_ids, idV⟩ (k + 1)).2)) := by
  simp [run_forms, hname, hid]

theorem run_forms_dedup (smtp : Nat → Bool) :
    ∀ (forms : List Form) (st : LoopState) (k : Nat),
      (∀ i, i ∈ processedIds (run_forms smtp forms st k).1 → i ∉ st.seen_ids)
      ∧ (processedIds (run_forms smtp forms st k).1).Nodup := by
  intro forms
  induction forms with
  | nil =>
    intro st k
    refine ⟨?_, ?_⟩ <;> simp [run_forms, processedIds]
  | cons form rest ih =>
    intro st k
    cases hname : form.lookup "name" with
    | none =>
      refine ⟨?_, ?_⟩ <;> simp [run_forms, hname, processedIds]
    | some nv =>
      cases hid : form.lookup "_id" with
      | none =>
        refine ⟨?_, ?_⟩ <;> simp [run_forms, hname, hid, processedIds]
      | some idV =>
        rw [run_forms_cons_eq smtp form rest st k nv idV hname hid]
        by_cases hseen : pyStr idV ∈ st.seen_ids
        · rw [if_pos hseen]
          have h := ih ⟨st.seen_ids, idV⟩ (k + 1)
          simpa [processedIds] using h
        · rw [if_neg hseen]
          by_cases hr : (send_email (smtp k) (process_form form).customer_info
              (process_form form).file_attachment (process_form form).file_name).isRaised
          · rw [if_pos hr]
            refine ⟨?_, ?_⟩
            · intro i hi
              have : i = pyStr idV := by simpa [processedIds] using hi
              subst this
              exact hseen
            · simp [processedIds]
          · rw [if_neg hr]
            obtain ⟨ih1, ih2⟩ := ih ⟨pyStr idV :: st.seen_ids, idV⟩ (k + 1)
            refine ⟨?_, ?_⟩
            · intro i hi
              rcases List.mem_cons.mp (by simpa [processedIds] using hi) with h1 | h1
              · subst h1
                exact hseen
              · intro hmem
                exact ih1 i h1 (List.mem_cons.mpr (Or.inr hmem))
            · have hhead : pyStr idV ∉ processedIds
                  (run_forms smtp rest ⟨pyStr idV :: st.seen_ids, idV⟩ (k + 1)).1 := by
                intro hmem
                exact ih1 (pyStr idV) hmem (List.mem_cons.mpr (Or.inl rfl))
              simpa [processedIds, List.nodup_cons] using ⟨hhead, ih2⟩

/-- C6: within one run over a batch, a record whose stringified
identifier is already in the dedup set at the start is never handed to
the notifier (its identifier does not occur among the processed ones),
and no identifier is handed to the notifier twice (the processed
identifiers are pairwise distinct), for every batch, every starting
state and every transport behaviour. -/
theorem C6_dedup_invariant (smtp : Nat → Bool) (forms : List Form)
    (st : LoopState) (k : Nat) :
    (∀ i, i ∈ processedIds (run_forms smtp forms st k).1 → i ∉ st.seen_ids)
    ∧ (processedIds (run_forms smtp forms st k).1).Nodup :=
  run_forms_dedup smtp forms st k

/-- Witness for C6: starting from a dedup set containing the string 0,
the single record with identifier 1 is processed, its identifier is not
in the starting set, and the processed identifiers are distinct. -/
theorem C6_dedup_invariant_witness :
    ("1" ∉ (⟨["0"], PyVal.none⟩ : LoopState).seen_ids)
    ∧ (processedIds (run_forms (fun _ => true) [formA] ⟨["0"], PyVal.none⟩ 0).1).Nodup :=
  ⟨(C6_dedup_invariant (fun _ => true) [formA] ⟨["0"], PyVal.none⟩ 0).1 "1" (by decide),
   (C6_dedup_invariant (fun _ => true) [formA] ⟨["0"], PyVal.none⟩ 0).2⟩
